import Mathlib

/-!
Shallow embedding of `pyfr/interfaces.py`: the interface layer of the PyFR
flux-reconstruction solver.  Matrices are modelled as flat lists over the
interface-point axis (the leading singleton `np.newaxis` axis of the source is
dropped, as it does not affect point counts or ordering).  Python exceptions
are modelled with an explicit error type carried in `Except`.
-/

namespace PyFRInterfaces

/-- Python-level failures that the interface layer can raise:
`attributeError` models `getattr` on a missing accessor (the spec's
`UnsupportedElementType`), `keyError` a missing element type in a dict lookup,
`valueError` models `np.concatenate` on an empty list and `float()` on an
unparseable string, `stopIteration` models `next(iter(...))` on an empty map. -/
inductive PyErr where
  | attributeError (attr : String)
  | keyError (key : String)
  | valueError
  | stopIteration
deriving DecidableEq, Repr

/-- One side of an interface: `(type, eidx, face, rtag)` as iterated by
`get_view_mats` and the normal assemblers. -/
structure Side where
  etype : String
  eidx : Nat
  face : Nat
  rtag : Nat
deriving DecidableEq, Repr

/-- The three aligned fragments returned by a scalar view accessor
(`get_scal_fpts{0,1}_for_inter` returns three arrays; `scal += ...` grows the
accumulator by three). -/
abbrev Frag3 := List Int × List Int × List Int

/-- An element object from the element map.  The two scalar flux-point
accessors are `Option`-valued because `getattr` may fail on an element type
that does not provide them; the normal accessors are always present. -/
structure Elem where
  ndims : Nat
  nvars : Nat
  scal_fpts0 : Option (Nat → Nat → Nat → Frag3)
  scal_fpts1 : Option (Nat → Nat → Nat → Frag3)
  mag_pnorms : Nat → Nat → Nat → List Int
  norm_pnorms : Nat → Nat → Nat → List (List Int)

/-- The element map `elemap`: an insertion-ordered dict from element-type name
to element object. -/
abbrev ElemMap := List (String × Elem)

/-- First-match association-list lookup, modelling Python dict indexing. -/
def alookup {α : Type} : List (String × α) → String → Option α
  | [], _ => none
  | (k, v) :: rest, t => if k = t then some v else alookup rest t

/-- The accessor name passed as the `mat` argument of `get_view_mats`. -/
inductive MatName where
  | scal_fpts0_for_inter
  | scal_fpts1_for_inter
deriving DecidableEq, Repr

/-- `getattr(ele, mat)`: fetch the named scalar accessor from an element. -/
def getattrAcc (e : Elem) : MatName → Option (Nat → Nat → Nat → Frag3)
  | .scal_fpts0_for_inter => e.scal_fpts0
  | .scal_fpts1_for_inter => e.scal_fpts1

/-- The Python attribute name corresponding to a `MatName`. -/
def matAttrName : MatName → String
  | .scal_fpts0_for_inter => "get_scal_fpts0_for_inter"
  | .scal_fpts1_for_inter => "get_scal_fpts1_for_inter"

/-- The dict comprehension
`{type: getattr(ele, mat) for type, ele in elemap.items()}`: it calls
`getattr` on EVERY element of the map (referenced by the side list or not) and
raises at the first element lacking the accessor. -/
def buildViewmatmap (em : ElemMap) (mat : MatName) :
    Except PyErr (List (String × (Nat → Nat → Nat → Frag3))) :=
  match em with
  | [] => .ok []
  | (t, e) :: rest =>
    match getattrAcc e mat with
    | none => .error (.attributeError (matAttrName mat))
    | some f =>
      match buildViewmatmap rest mat with
      | .error err => .error err
      | .ok m => .ok ((t, f) :: m)

/-- The per-side loop of `get_view_mats`: look each side's type up in the
view-mat map (a `KeyError` if absent) and collect the three fragments. -/
def sideFragsOf (vmm : List (String × (Nat → Nat → Nat → Frag3))) :
    List Side → Except PyErr (List Frag3)
  | [] => .ok []
  | s :: rest =>
    match alookup vmm s.etype with
    | none => .error (.keyError s.etype)
    | some f =>
      match sideFragsOf vmm rest with
      | .error err => .error err
      | .ok fs => .ok ((f s.eidx s.face s.rtag) :: fs)

/-- `np.concatenate`, which raises a `ValueError` when handed no arrays. -/
def npConcatenate {α : Type} (xs : List (List α)) : Except PyErr (List α) :=
  match xs with
  | [] => .error .valueError
  | _ => .ok xs.flatten

/-- `get_view_mats(interside, mat, elemap)`: build the accessor map over the
whole element map, query it per side, and concatenate fragment `i` across all
sides (`scal[i::3]`) for `i = 0, 1, 2`. -/
def get_view_mats (interside : List Side) (mat : MatName) (em : ElemMap) :
    Except PyErr Frag3 :=
  match buildViewmatmap em mat with
  | .error err => .error err
  | .ok vmm =>
    match sideFragsOf vmm interside with
    | .error err => .error err
    | .ok frags =>
      match npConcatenate (frags.map (fun p => p.1)) with
      | .error err => .error err
      | .ok a =>
        match npConcatenate (frags.map (fun p => p.2.1)) with
        | .error err => .error err
        | .ok b =>
          match npConcatenate (frags.map (fun p => p.2.2)) with
          | .error err => .error err
          | .ok c => .ok (a, b, c)

/-- The per-side loop of `get_mag_pnorm_mat`:
`elemap[type].get_mag_pnorms_for_inter(eidx, fidx, rtag)` for each side. -/
def magFragsOf (em : ElemMap) : List Side → Except PyErr (List (List Int))
  | [] => .ok []
  | s :: rest =>
    match alookup em s.etype with
    | none => .error (.keyError s.etype)
    | some e =>
      match magFragsOf em rest with
      | .error err => .error err
      | .ok ms => .ok ((e.mag_pnorms s.eidx s.face s.rtag) :: ms)

/-- `get_mag_pnorm_mat(interside, elemap)`. -/
def get_mag_pnorm_mat (interside : List Side) (em : ElemMap) :
    Except PyErr (List Int) :=
  match magFragsOf em interside with
  | .error err => .error err
  | .ok ms => npConcatenate ms

/-- The per-side loop of `get_norm_pnorm_mat`:
`elemap[type].get_norm_pnorms_for_inter(eidx, fidx, rtag)` for each side. -/
def normFragsOf (em : ElemMap) : List Side → Except PyErr (List (List (List Int)))
  | [] => .ok []
  | s :: rest =>
    match alookup em s.etype with
    | none => .error (.keyError s.etype)
    | some e =>
      match normFragsOf em rest with
      | .error err => .error err
      | .ok ns => .ok ((e.norm_pnorms s.eidx s.face s.rtag) :: ns)

/-- `get_norm_pnorm_mat(interside, elemap)`. -/
def get_norm_pnorm_mat (interside : List Side) (em : ElemMap) :
    Except PyErr (List (List Int)) :=
  match normFragsOf em interside with
  | .error err => .error err
  | .ok ns => npConcatenate ns

/-- `BaseInterfaces.__init__`: `next(iter(elemap.viewvalues()))` twice, which
raises `StopIteration` on an empty map, else yields `(ndims, nvars)` of the
first entry. -/
def baseInterfacesInit (em : ElemMap) : Except PyErr (Nat × Nat) :=
  match em with
  | [] => .error .stopIteration
  | (_, e) :: _ => .ok (e.ndims, e.nvars)

/-- What a backend allocation holds.  `view`/`mpiView` keep the three
concatenated view matrices and the vector length; `constMatrix` a
normal-magnitude matrix; `constMatrixV` a unit-normal matrix;
`mpiMatrixForView` a dense receive buffer recording the id of the view it was
sized from together with that view's point count and vector length. -/
inductive Payload where
  | view (c0 c1 c2 : List Int) (vlen : Nat)
  | constMatrix (m : List Int)
  | constMatrixV (m : List (List Int))
  | mpiView (c0 c1 c2 : List Int) (vlen : Nat)
  | mpiMatrixForView (src : Nat) (npts : Nat) (vlen : Nat)
deriving DecidableEq, Repr

/-- A backend object handle: a fresh id plus the allocated payload. -/
structure Handle where
  id : Nat
  payload : Payload
deriving DecidableEq, Repr

/-- The backend `be`: a fresh-id counter and the list of allocations made so
far, in order. -/
structure Backend where
  nextId : Nat
  allocs : List Handle
deriving DecidableEq, Repr

/-- Allocate one backend object, returning its handle and the grown backend. -/
def Backend.alloc (be : Backend) (p : Payload) : Handle × Backend :=
  (⟨be.nextId, p⟩, ⟨be.nextId + 1, be.allocs ++ [⟨be.nextId, p⟩]⟩)

/-- Point count of a view payload (length of the concatenated first matrix). -/
def Payload.viewNpts : Payload → Nat
  | .view c0 _ _ _ => c0.length
  | .mpiView c0 _ _ _ => c0.length
  | _ => 0

/-- Vector length of a view payload. -/
def Payload.viewVlen : Payload → Nat
  | .view _ _ _ v => v
  | .mpiView _ _ _ v => v
  | _ => 0

/-- `be.mpi_matrix_for_view(v)`: allocate a dense matrix sized from the given
view. -/
def Backend.mpi_matrix_for_view (be : Backend) (v : Handle) : Handle × Backend :=
  be.alloc (.mpiMatrixForView v.id v.payload.viewNpts v.payload.viewVlen)

/-- The configuration object: a map from `(section, option)` to the raw
string value.  Configuration parsing is an external collaborator of this
layer; only `get`/`getfloat` on it are consumed here. -/
structure Inifile where
  entries : List ((String × String) × String)
deriving DecidableEq, Repr

/-- Raw lookup of a configuration entry. -/
def Inifile.find : List ((String × String) × String) → String → String → Option String
  | [], _, _ => none
  | (k, v) :: rest, sec, opt =>
    if k = (sec, opt) then some v else Inifile.find rest sec opt

/-- `cfg.get(section, option)`: the raw string, or a `KeyError`. -/
def Inifile.get (cfg : Inifile) (sec opt : String) : Except PyErr String :=
  match Inifile.find cfg.entries sec opt with
  | none => .error (.keyError opt)
  | some v => .ok v

/-- Numeric value of a decimal digit character. -/
def digitVal (c : Char) : Nat := c.toNat - 48

/-- Whether every character of a list is a decimal digit. -/
def allDigits (cs : List Char) : Bool := cs.all (fun c => c.isDigit)

/-- Natural number denoted by a digit list. -/
def natOfDigits (cs : List Char) : Nat :=
  cs.foldl (fun acc c => acc * 10 + digitVal c) 0

/-- The exact value parsed from a decimal literal: the rational
mant / 10 ^ exp, kept in unreduced decimal form so that equality of two
parses of the same string is syntactic. -/
structure DecValue where
  mant : Int
  exp : Nat
deriving DecidableEq, Repr

/-- Python `float(s)` on simple decimal literals (optional sign, integer
part, optional fractional part), as exact decimal values; `none` when the
string is unparseable (`float()` raises ValueError there). -/
def pyfloat (s : String) : Option DecValue :=
  let cs := s.data
  let signed : Int × List Char :=
    match cs with
    | c :: rest =>
      if c = '-' then (-1, rest) else if c = '+' then (1, rest) else (1, cs)
    | [] => (1, [])
  let ip := signed.2.takeWhile (fun c => c ≠ '.')
  let rest := signed.2.dropWhile (fun c => c ≠ '.')
  match rest with
  | [] =>
    if ip.isEmpty then none
    else if allDigits ip then
      some { mant := signed.1 * (natOfDigits ip : Int), exp := 0 }
    else none
  | _ :: frac =>
    if ip.isEmpty then none
    else if allDigits ip && allDigits frac then
      some { mant := signed.1 *
               ((natOfDigits ip * 10 ^ frac.length + natOfDigits frac : Nat) : Int),
             exp := frac.length }
    else none

/-- `cfg.getfloat(section, option)`: Python's `ConfigParser.getfloat` coerces
the raw string with `float(...)`, i.e. it is `float(cfg.get(section, option))`;
an unparseable value raises (`valueError`). -/
def Inifile.getfloat (cfg : Inifile) (sec opt : String) : Except PyErr DecValue :=
  match cfg.get sec opt with
  | .error err => .error err
  | .ok s =>
    match pyfloat s with
    | none => .error .valueError
    | some v => .ok v

/-- An argument of a kernel descriptor. -/
inductive KArg where
  | nat (v : Nat)
  | hnd (h : Handle)
  | fval (v : DecValue)
deriving DecidableEq, Repr

/-- A kernel descriptor as returned by `be.kernel(name, *args)`. -/
structure KernelDesc where
  name : String
  args : List KArg
deriving DecidableEq, Repr

/-- The state stored by `BaseInternalInterfaces.__init__` (its attributes). -/
structure InternalState where
  ndims : Nat
  nvars : Nat
  cfg : Inifile
  scal0_lhs : Handle
  scal0_rhs : Handle
  mag_pnorm_lhs : Handle
  mag_pnorm_rhs : Handle
  norm_pnorm_lhs : Handle
deriving DecidableEq, Repr

/-- Sequence a possibly-raising step against the backend: on error the
exception propagates and the backend is left as it was at that point. -/
def stepE {α β : Type} (r : Except PyErr α) (be : Backend)
    (k : α → Backend → Except PyErr β × Backend) : Except PyErr β × Backend :=
  match r with
  | .error err => (.error err, be)
  | .ok a => k a be

/-- `BaseInternalInterfaces.__init__(be, lhs, rhs, elemap, cfg)`: views for
both sides, magnitude matrices for both sides, unit-normal matrix for the lhs
side only, in source order. -/
def baseInternalInit (be : Backend) (lhs rhs : List Side) (em : ElemMap)
    (cfg : Inifile) : Except PyErr InternalState × Backend :=
  stepE (baseInterfacesInit em) be fun nv be =>
  stepE (get_view_mats lhs .scal_fpts0_for_inter em) be fun s0l be =>
  stepE (get_view_mats rhs .scal_fpts0_for_inter em) be fun s0r be =>
  let (hl, be) := be.alloc (.view s0l.1 s0l.2.1 s0l.2.2 nv.2)
  let (hr, be) := be.alloc (.view s0r.1 s0r.2.1 s0r.2.2 nv.2)
  stepE (get_mag_pnorm_mat lhs em) be fun ml be =>
  stepE (get_mag_pnorm_mat rhs em) be fun mr be =>
  let (hml, be) := be.alloc (.constMatrix ml)
  let (hmr, be) := be.alloc (.constMatrix mr)
  stepE (get_norm_pnorm_mat lhs em) be fun nl be =>
  let (hnl, be) := be.alloc (.constMatrixV nl)
  (.ok { ndims := nv.1, nvars := nv.2, cfg := cfg, scal0_lhs := hl,
         scal0_rhs := hr, mag_pnorm_lhs := hml, mag_pnorm_rhs := hmr,
         norm_pnorm_lhs := hnl }, be)

/-- The state stored by `BaseMPIInterfaces.__init__` (its attributes). -/
structure MPIState where
  ndims : Nat
  nvars : Nat
  cfg : Inifile
  rhsrank : Nat
  scal0_lhs : Handle
  scal0_rhs : Handle
  mag_pnorm_lhs : Handle
  norm_pnorm_lhs : Handle
deriving DecidableEq, Repr

/-- `BaseMPIInterfaces.MPI_TAG`: the fixed class-level literal tag. -/
def MPI_TAG : Nat := 2314

/-- `BaseMPIInterfaces.__init__(be, lhs, rhsrank, elemap, cfg)`: lhs view, a
dense rhs receive buffer sized from that view, lhs magnitude and unit-normal
matrices. -/
def baseMPIInit (be : Backend) (lhs : List Side) (rhsrank : Nat) (em : ElemMap)
    (cfg : Inifile) : Except PyErr MPIState × Backend :=
  stepE (baseInterfacesInit em) be fun nv be =>
  stepE (get_view_mats lhs .scal_fpts0_for_inter em) be fun s0l be =>
  let (hl, be) := be.alloc (.mpiView s0l.1 s0l.2.1 s0l.2.2 nv.2)
  let (hr, be) := be.mpi_matrix_for_view hl
  stepE (get_mag_pnorm_mat lhs em) be fun ml be =>
  stepE (get_norm_pnorm_mat lhs em) be fun nl be =>
  let (hml, be) := be.alloc (.constMatrix ml)
  let (hnl, be) := be.alloc (.constMatrixV nl)
  (.ok { ndims := nv.1, nvars := nv.2, cfg := cfg, rhsrank := rhsrank,
         scal0_lhs := hl, scal0_rhs := hr, mag_pnorm_lhs := hml,
         norm_pnorm_lhs := hnl }, be)

/-- `BaseMPIInterfaces.get_scal_fpts0_pack_kern`.  Kernel getters are
modelled as returning the descriptor (or exception) together with the state of
the instance after the call; their bodies perform no attribute assignment. -/
def get_scal_fpts0_pack_kern (st : MPIState) :
    Except PyErr KernelDesc × MPIState :=
  (.ok { name := "pack", args := [.hnd st.scal0_lhs] }, st)

/-- `BaseMPIInterfaces.get_scal_fpts0_send_pack_kern`: the send buffer goes to
the paired rank under `MPI_TAG`. -/
def get_scal_fpts0_send_pack_kern (st : MPIState) :
    Except PyErr KernelDesc × MPIState :=
  (.ok { name := "send_pack",
         args := [.hnd st.scal0_lhs, .nat st.rhsrank, .nat MPI_TAG] }, st)

/-- `BaseMPIInterfaces.get_scal_fpts0_recv_pack_kern`: receive into the dense
rhs buffer from the paired rank under `MPI_TAG`. -/
def get_scal_fpts0_recv_pack_kern (st : MPIState) :
    Except PyErr KernelDesc × MPIState :=
  (.ok { name := "recv_pack",
         args := [.hnd st.scal0_rhs, .nat st.rhsrank, .nat MPI_TAG] }, st)

/-- `BaseMPIInterfaces.get_scal_fpts0_unpack_kern`. -/
def get_scal_fpts0_unpack_kern (st : MPIState) :
    Except PyErr KernelDesc × MPIState :=
  (.ok { name := "unpack", args := [.hnd st.scal0_rhs] }, st)

/-- `EulerInternalInterfaces.get_rsolve_kern`: reads gamma via
`cfg.getfloat('constants', 'gamma')`. -/
def eulerInternal_get_rsolve_kern (st : InternalState) :
    Except PyErr KernelDesc × InternalState :=
  (match st.cfg.getfloat "constants" "gamma" with
   | .error err => .error err
   | .ok gamma =>
     .ok { name := "rsolve_rus_inv_int",
           args := [.nat st.ndims, .nat st.nvars, .hnd st.scal0_lhs,
                    .hnd st.scal0_rhs, .hnd st.mag_pnorm_lhs,
                    .hnd st.mag_pnorm_rhs, .hnd st.norm_pnorm_lhs,
                    .fval gamma] }, st)

/-- `EulerMPIInterfaces.get_rsolve_kern`: reads gamma via
`float(cfg.get('constants', 'gamma'))`. -/
def eulerMPI_get_rsolve_kern (st : MPIState) :
    Except PyErr KernelDesc × MPIState :=
  (match st.cfg.get "constants" "gamma" with
   | .error err => .error err
   | .ok s =>
     match pyfloat s with
     | none => .error .valueError
     | some gamma =>
       .ok { name := "rsolve_rus_inv_mpi",
             args := [.nat st.ndims, .nat st.nvars, .hnd st.scal0_lhs,
                      .hnd st.scal0_rhs, .hnd st.mag_pnorm_lhs,
                      .hnd st.norm_pnorm_lhs, .fval gamma] }, st)

/-- The state stored by `NavierStokesInternalInterfaces.__init__`.
`betaAttr` models the `self._beta` attribute read by `get_conu_fpts_kern`;
the source never assigns it, so after construction it is absent (`none`). -/
structure NSInternalState where
  base : InternalState
  scal1_lhs : Handle
  scal1_rhs : Handle
  betaAttr : Option DecValue
deriving DecidableEq, Repr

/-- `NavierStokesInternalInterfaces.__init__`: the base constructor plus a
second pair of scalar views; no assignment to `self._beta` occurs. -/
def nsInternalInit (be : Backend) (lhs rhs : List Side) (em : ElemMap)
    (cfg : Inifile) : Except PyErr NSInternalState × Backend :=
  match baseInternalInit be lhs rhs em cfg with
  | (.error err, be) => (.error err, be)
  | (.ok st0, be) =>
    stepE (get_view_mats lhs .scal_fpts1_for_inter em) be fun s1l be =>
    stepE (get_view_mats rhs .scal_fpts1_for_inter em) be fun s1r be =>
    let (h1l, be) := be.alloc (.view s1l.1 s1l.2.1 s1l.2.2 st0.nvars)
    let (h1r, be) := be.alloc (.view s1r.1 s1r.2.1 s1r.2.2 st0.nvars)
    (.ok { base := st0, scal1_lhs := h1l, scal1_rhs := h1r,
           betaAttr := none }, be)

/-- `NavierStokesInternalInterfaces.get_conu_fpts_kern`: reads `self._beta`,
which no constructor ever assigns, so the attribute lookup raises
`AttributeError` on every instance built by `nsInternalInit`. -/
def nsInternal_get_conu_fpts_kern (st : NSInternalState) :
    Except PyErr KernelDesc × NSInternalState :=
  (match st.betaAttr with
   | none => .error (.attributeError "_beta")
   | some b =>
     .ok { name := "conu_int",
           args := [.nat st.base.ndims, .nat st.base.nvars,
                    .hnd st.base.scal0_lhs, .hnd st.base.scal0_rhs,
                    .hnd st.scal1_lhs, .hnd st.scal1_rhs, .fval b] }, st)

/-- The state stored by `NavierStokesMPIInterfaces.__init__`. -/
structure NSMPIState where
  base : MPIState
  scal1_lhs : Handle
deriving DecidableEq, Repr

/-- `NavierStokesMPIInterfaces.__init__`: the base constructor plus a second
lhs scalar view. -/
def nsMPIInit (be : Backend) (lhs : List Side) (rhsrank : Nat) (em : ElemMap)
    (cfg : Inifile) : Except PyErr NSMPIState × Backend :=
  match baseMPIInit be lhs rhsrank em cfg with
  | (.error err, be) => (.error err, be)
  | (.ok st0, be) =>
    stepE (get_view_mats lhs .scal_fpts1_for_inter em) be fun s1l be =>
    let (h1l, be) := be.alloc (.mpiView s1l.1 s1l.2.1 s1l.2.2 st0.nvars)
    (.ok { base := st0, scal1_lhs := h1l }, be)

/-- `NavierStokesMPIInterfaces.get_conu_fpts_kern`: its argument list carries
no scalar constant at all. -/
def nsMPI_get_conu_fpts_kern (st : NSMPIState) :
    Except PyErr KernelDesc × NSMPIState :=
  (.ok { name := "conu_mpi",
         args := [.nat st.base.ndims, .nat st.base.nvars,
                  .hnd st.base.scal0_lhs, .hnd st.base.scal0_rhs,
                  .hnd st.scal1_lhs] }, st)

/-- What one side contributes to a scalar view: look its type up in the
element map and apply the requested accessor, `none` when either step has no
answer. -/
def sideScalFrag (em : ElemMap) (mat : MatName) (s : Side) : Option Frag3 :=
  (alookup em s.etype).bind fun e =>
    (getattrAcc e mat).map fun f => f s.eidx s.face s.rtag

/-- What one side contributes to the normal-magnitude matrix. -/
def sideMagFrag (em : ElemMap) (s : Side) : Option (List Int) :=
  (alookup em s.etype).map fun e => e.mag_pnorms s.eidx s.face s.rtag

/-- What one side contributes to the unit-normal matrix. -/
def sideNormFrag (em : ElemMap) (s : Side) : Option (List (List Int)) :=
  (alookup em s.etype).map fun e => e.norm_pnorms s.eidx s.face s.rtag

/-- Whether a payload is a scalar constant matrix (a magnitude matrix). -/
def Payload.isConstM : Payload → Bool
  | .constMatrix _ => true
  | _ => false

/-- Whether a payload is a vector constant matrix (a unit-normal matrix). -/
def Payload.isConstMV : Payload → Bool
  | .constMatrixV _ => true
  | _ => false

/-- Whether a kernel argument is a scalar (rational) constant. -/
def KArg.isFloatConst : KArg → Bool
  | .fval _ => true
  | _ => false

/-- Whether a construction result is a successfully built instance. -/
def okB {α : Type} : Except PyErr α → Bool
  | .ok _ => true
  | .error _ => false

theorem map_congr_mem {α β : Type} (l : List α) (f g : α → β)
    (h : ∀ a ∈ l, f a = g a) : l.map f = l.map g := by
  induction l with
  | nil => rfl
  | cons a t ih =>
    simp only [List.map, h a (List.mem_cons_self a t),
      ih (fun b hb => h b (List.mem_cons_of_mem a hb))]

theorem npConcatenate_ok {α : Type} (xs : List (List α)) (h : xs ≠ []) :
    npConcatenate xs = .ok xs.flatten := by
  cases xs with
  | nil => exact absurd rfl h
  | cons a l => rfl

theorem npConcatenate_error_eq {α : Type} (xs : List (List α)) (err : PyErr)
    (h : npConcatenate xs = .error err) : err = .valueError := by
  cases xs with
  | nil => simpa [npConcatenate] using h.symm
  | cons a l => simp [npConcatenate] at h

theorem buildViewmatmap_ok_of_all (em : ElemMap) (mat : MatName)
    (h : ∀ p ∈ em, (getattrAcc p.2 mat).isSome) :
    ∃ vmm, buildViewmatmap em mat = .ok vmm ∧
      ∀ t, alookup vmm t = (alookup em t).bind (fun e => getattrAcc e mat) := by
  induction em with
  | nil => exact ⟨[], rfl, fun t => rfl⟩
  | cons p rest ih =>
    obtain ⟨t0, e0⟩ := p
    have hp := h (t0, e0) (List.mem_cons_self _ _)
    obtain ⟨f, hf⟩ := Option.isSome_iff_exists.mp hp
    obtain ⟨vmm, hb, hl⟩ := ih (fun q hq => h q (List.mem_cons_of_mem _ hq))
    refine ⟨(t0, f) :: vmm, ?_, ?_⟩
    · simp only [buildViewmatmap, hf, hb]
    · intro t
      by_cases ht : t0 = t
      · simp [alookup, ht, hf]
      · simp [alookup, ht, hl t]

theorem buildViewmatmap_error_iff (em : ElemMap) (mat : MatName) :
    (∃ p ∈ em, getattrAcc p.2 mat = none) ↔
      buildViewmatmap em mat = .error (.attributeError (matAttrName mat)) := by
  induction em with
  | nil => simp [buildViewmatmap]
  | cons p rest ih =>
    obtain ⟨t0, e0⟩ := p
    cases hf : getattrAcc e0 mat with
    | none =>
      constructor
      · intro _; simp [buildViewmatmap, hf]
      · intro _; exact ⟨(t0, e0), List.mem_cons_self _ _, hf⟩
    | some f =>
      constructor
      · intro hex
        obtain ⟨q, hq, hqn⟩ := hex
        rcases List.mem_cons.mp hq with hq0 | hqr
        · rw [hq0] at hqn; simp [hf] at hqn
        · have hrest := ih.mp ⟨q, hqr, hqn⟩
          simp [buildViewmatmap, hf, hrest]
      · intro herr
        simp only [buildViewmatmap, hf] at herr
        cases hb : buildViewmatmap rest mat with
        | error err =>
          rw [hb] at herr
          have : err = .attributeError (matAttrName mat) := by
            simpa using herr
          obtain ⟨q, hq, hqn⟩ := ih.mpr (this ▸ hb)
          exact ⟨q, List.mem_cons_of_mem _ hq, hqn⟩
        | ok m => rw [hb] at herr; simp at herr

theorem sideFragsOf_error_keyError (vmm : List (String × (Nat → Nat → Nat → Frag3)))
    (sides : List Side) (err : PyErr) (h : sideFragsOf vmm sides = .error err) :
    ∃ t, err = .keyError t := by
  induction sides with
  | nil => simp [sideFragsOf] at h
  | cons s rest ih =>
    simp only [sideFragsOf] at h
    cases hl : alookup vmm s.etype with
    | none =>
      rw [hl] at h
      exact ⟨s.etype, by simpa using h.symm⟩
    | some f =>
      rw [hl] at h
      cases hr : sideFragsOf vmm rest with
      | error e2 =>
        rw [hr] at h
        have he2 : err = e2 := by simpa using h.symm
        exact ih (by rw [hr, he2])
      | ok fs => rw [hr] at h; simp at h

theorem sideFragsOf_ok (em : ElemMap) (mat : MatName)
    (vmm : List (String × (Nat → Nat → Nat → Frag3)))
    (hl : ∀ t, alookup vmm t = (alookup em t).bind (fun e => getattrAcc e mat))
    (sides : List Side) (g : Side → Frag3)
    (h : ∀ s ∈ sides, sideScalFrag em mat s = some (g s)) :
    sideFragsOf vmm sides = .ok (sides.map g) := by
  induction sides with
  | nil => rfl
  | cons s rest ih =>
    have hs := h s (List.mem_cons_self _ _)
    cases he : alookup em s.etype with
    | none => simp [sideScalFrag, he] at hs
    | some e =>
      cases hf : getattrAcc e mat with
      | none => simp [sideScalFrag, he, hf] at hs
      | some f =>
        simp [sideScalFrag, he, hf] at hs
        have hvl : alookup vmm s.etype = some f := by
          rw [hl, he]
          simp [hf]
        simp only [sideFragsOf, hvl,
          ih (fun q hq => h q (List.mem_cons_of_mem _ hq)), hs, List.map]

theorem get_view_mats_ok (em : ElemMap) (mat : MatName) (sides : List Side)
    (g : Side → Frag3)
    (hall : ∀ p ∈ em, (getattrAcc p.2 mat).isSome)
    (hs : ∀ s ∈ sides, sideScalFrag em mat s = some (g s))
    (hne : sides ≠ []) :
    get_view_mats sides mat em =
      .ok ((sides.map fun s => (g s).1).flatten,
           (sides.map fun s => (g s).2.1).flatten,
           (sides.map fun s => (g s).2.2).flatten) := by
  obtain ⟨vmm, hb, hl⟩ := buildViewmatmap_ok_of_all em mat hall
  have hf := sideFragsOf_ok em mat vmm hl sides g hs
  have hne1 : (sides.map g).map (fun p => p.1) ≠ [] := by simpa using hne
  have hne2 : (sides.map g).map (fun p => p.2.1) ≠ [] := by simpa using hne
  have hne3 : (sides.map g).map (fun p => p.2.2) ≠ [] := by simpa using hne
  simp only [get_view_mats, hb, hf]
  rw [npConcatenate_ok _ hne1, npConcatenate_ok _ hne2, npConcatenate_ok _ hne3]
  simp only [List.map_map]
  rfl

theorem magFragsOf_ok (em : ElemMap) (sides : List Side) (gm : Side → List Int)
    (h : ∀ s ∈ sides, sideMagFrag em s = some (gm s)) :
    magFragsOf em sides = .ok (sides.map gm) := by
  induction sides with
  | nil => rfl
  | cons s rest ih =>
    have hs := h s (List.mem_cons_self _ _)
    simp only [sideMagFrag] at hs
    cases he : alookup em s.etype with
    | none => rw [he] at hs; simp at hs
    | some e =>
      rw [he] at hs
      have hres : e.mag_pnorms s.eidx s.face s.rtag = gm s := by simpa using hs
      simp only [magFragsOf, he,
        ih (fun q hq => h q (List.mem_cons_of_mem _ hq)), hres, List.map]

theorem normFragsOf_ok (em : ElemMap) (sides : List Side)
    (gn : Side → List (List Int))
    (h : ∀ s ∈ sides, sideNormFrag em s = some (gn s)) :
    normFragsOf em sides = .ok (sides.map gn) := by
  induction sides with
  | nil => rfl
  | cons s rest ih =>
    have hs := h s (List.mem_cons_self _ _)
    simp only [sideNormFrag] at hs
    cases he : alookup em s.etype with
    | none => rw [he] at hs; simp at hs
    | some e =>
      rw [he] at hs
      have hres : e.norm_pnorms s.eidx s.face s.rtag = gn s := by simpa using hs
      simp only [normFragsOf, he,
        ih (fun q hq => h q (List.mem_cons_of_mem _ hq)), hres, List.map]

theorem get_mag_pnorm_mat_ok (em : ElemMap) (sides : List Side)
    (gm : Side → List Int)
    (h : ∀ s ∈ sides, sideMagFrag em s = some (gm s)) (hne : sides ≠ []) :
    get_mag_pnorm_mat sides em = .ok (sides.map gm).flatten := by
  have hmne : sides.map gm ≠ [] := by simpa using hne
  simp only [get_mag_pnorm_mat, magFragsOf_ok em sides gm h,
    npConcatenate_ok _ hmne]

theorem get_norm_pnorm_mat_ok (em : ElemMap) (sides : List Side)
    (gn : Side → List (List Int))
    (h : ∀ s ∈ sides, sideNormFrag em s = some (gn s)) (hne : sides ≠ []) :
    get_norm_pnorm_mat sides em = .ok (sides.map gn).flatten := by
  have hmne : sides.map gn ≠ [] := by simpa using hne
  simp only [get_norm_pnorm_mat, normFragsOf_ok em sides gn h,
    npConcatenate_ok _ hmne]

/-- A concrete element type providing every accessor, one point per face. -/
def eleT : Elem :=
  { ndims := 2, nvars := 4,
    scal_fpts0 := some (fun ei fa rt =>
      ([Int.ofNat ei], [Int.ofNat fa], [Int.ofNat rt])),
    scal_fpts1 := some (fun ei fa rt =>
      ([Int.ofNat (ei + 10)], [Int.ofNat (fa + 10)], [Int.ofNat (rt + 10)])),
    mag_pnorms := fun ei fa rt => [Int.ofNat (ei + fa + rt)],
    norm_pnorms := fun ei fa rt => [[Int.ofNat ei, Int.ofNat fa, Int.ofNat rt]] }

/-- A concrete element type lacking both scalar view accessors. -/
def eleNoAcc : Elem :=
  { ndims := 2, nvars := 4, scal_fpts0 := none, scal_fpts1 := none,
    mag_pnorms := fun _ _ _ => [0], norm_pnorms := fun _ _ _ => [[0]] }

/-- A concrete side of element type tri. -/
def sTri : Side := { etype := "tri", eidx := 0, face := 1, rtag := 0 }

/-- A second concrete side of element type tri. -/
def sTri2 : Side := { etype := "tri", eidx := 1, face := 2, rtag := 1 }

/-- A one-type element map whose type provides every accessor. -/
def em1 : ElemMap := [("tri", eleT)]

/-- A two-type element map where the second type lacks the scalar accessors. -/
def em2 : ElemMap := [("tri", eleT), ("quad", eleNoAcc)]

/-- A fresh backend. -/
def be0 : Backend := { nextId := 0, allocs := [] }

/-- An empty configuration. -/
def cfg0 : Inifile := { entries := [] }

/-- A configuration holding a parseable gamma constant. -/
def cfgG : Inifile := { entries := [(("constants", "gamma"), "1.4")] }

/-- C9: constructing any interface set over an empty element map raises
StopIteration inside the shared base constructor, before any view, constant
matrix or receive buffer is allocated: the backend comes back unchanged. -/
theorem c9_empty_elemap_fails_first (be : Backend) (lhs rhs : List Side)
    (rk : Nat) (cfg : Inifile) :
    baseInternalInit be lhs rhs [] cfg = (.error .stopIteration, be) ∧
    baseMPIInit be lhs rk [] cfg = (.error .stopIteration, be) ∧
    nsInternalInit be lhs rhs [] cfg = (.error .stopIteration, be) ∧
    nsMPIInit be lhs rk [] cfg = (.error .stopIteration, be) :=
  ⟨rfl, rfl, rfl, rfl⟩

/-- C5: the send_pack and recv_pack kernel descriptors of a distributed
interface set both carry the paired rank and the same fixed class-level tag
literal 2314, and some other tag value is distinct from it. -/
theorem c5_fixed_exchange_tag (st : MPIState) :
    (get_scal_fpts0_send_pack_kern st).1 =
      .ok { name := "send_pack",
            args := [.hnd st.scal0_lhs, .nat st.rhsrank, .nat MPI_TAG] } ∧
    (get_scal_fpts0_recv_pack_kern st).1 =
      .ok { name := "recv_pack",
            args := [.hnd st.scal0_rhs, .nat st.rhsrank, .nat MPI_TAG] } ∧
    MPI_TAG = 2314 ∧ ∃ other : Nat, other ≠ MPI_TAG :=
  ⟨rfl, rfl, rfl, ⟨0, by decide⟩⟩

/-- C8: every kernel-selection call is pure and idempotent: it returns the
instance state unchanged, and calling it a second time yields the identical
descriptor (or the identical exception). -/
theorem c8_kernel_getters_pure (stI : InternalState) (stM : MPIState)
    (stNI : NSInternalState) (stNM : NSMPIState) :
    ((eulerInternal_get_rsolve_kern stI).2 = stI ∧
      (eulerInternal_get_rsolve_kern ((eulerInternal_get_rsolve_kern stI).2)).1 =
        (eulerInternal_get_rsolve_kern stI).1) ∧
    ((eulerMPI_get_rsolve_kern stM).2 = stM ∧
      (eulerMPI_get_rsolve_kern ((eulerMPI_get_rsolve_kern stM).2)).1 =
        (eulerMPI_get_rsolve_kern stM).1) ∧
    ((get_scal_fpts0_pack_kern stM).2 = stM ∧
      (get_scal_fpts0_pack_kern ((get_scal_fpts0_pack_kern stM).2)).1 =
        (get_scal_fpts0_pack_kern stM).1) ∧
    ((get_scal_fpts0_send_pack_kern stM).2 = stM ∧
      (get_scal_fpts0_send_pack_kern ((get_scal_fpts0_send_pack_kern stM).2)).1 =
        (get_scal_fpts0_send_pack_kern stM).1) ∧
    ((get_scal_fpts0_recv_pack_kern stM).2 = stM ∧
      (get_scal_fpts0_recv_pack_kern ((get_scal_fpts0_recv_pack_kern stM).2)).1 =
        (get_scal_fpts0_recv_pack_kern stM).1) ∧
    ((get_scal_fpts0_unpack_kern stM).2 = stM ∧
      (get_scal_fpts0_unpack_kern ((get_scal_fpts0_unpack_kern stM).2)).1 =
        (get_scal_fpts0_unpack_kern stM).1) ∧
    ((nsInternal_get_conu_fpts_kern stNI).2 = stNI ∧
      (nsInternal_get_conu_fpts_kern ((nsInternal_get_conu_fpts_kern stNI).2)).1 =
        (nsInternal_get_conu_fpts_kern stNI).1) ∧
    ((nsMPI_get_conu_fpts_kern stNM).2 = stNM ∧
      (nsMPI_get_conu_fpts_kern ((nsMPI_get_conu_fpts_kern stNM).2)).1 =
        (nsMPI_get_conu_fpts_kern stNM).1) :=
  ⟨⟨rfl, rfl⟩, ⟨rfl, rfl⟩, ⟨rfl, rfl⟩, ⟨rfl, rfl⟩, ⟨rfl, rfl⟩, ⟨rfl, rfl⟩,
   ⟨rfl, rfl⟩, ⟨rfl, rfl⟩⟩

/-- C2 (code evidence): a Navier-Stokes internal interface set is constructed
without any assignment of the dissipation-constant attribute it later reads,
so its common-interface-value getter raises AttributeError on _beta; and the
Navier-Stokes distributed variant's common-interface-value kernel carries no
scalar constant argument at all.  Neither getter is parameterized by a
configuration-derived dissipation constant. -/
theorem c2_conu_constant_missing :
    (Except.map (fun st => (nsInternal_get_conu_fpts_kern st).1)
        (nsInternalInit be0 [sTri] [sTri2] em1 cfg0).1) =
      .ok (.error (.attributeError "_beta")) ∧
    (Except.map (fun st => (nsMPI_get_conu_fpts_kern st).1.map
        (fun k => k.args.any KArg.isFloatConst))
        (nsMPIInit be0 [sTri] 2 em1 cfg0).1) = .ok (.ok false) :=
  ⟨rfl, rfl⟩

/-- C3 counterexample: with an lhs side list of length 1 and an rhs side list
of length 2, the internal interface constructor succeeds; the claimed
ShapeMismatch abort does not occur. -/
theorem c3_counterexample :
    [sTri].length ≠ [sTri, sTri2].length ∧
    okB (baseInternalInit be0 [sTri] [sTri, sTri2] em1 cfg0).1 = true :=
  ⟨by decide, rfl⟩

theorem option_eq_some_getD {α : Type} (o : Option α) (d : α)
    (h : o.isSome) : o = some (o.getD d) := by
  cases o with
  | none => simp at h
  | some v => rfl

theorem alookup_mem {α : Type} (m : List (String × α)) (t : String) (v : α)
    (h : alookup m t = some v) : (t, v) ∈ m := by
  induction m with
  | nil => simp [alookup] at h
  | cons p rest ih =>
    obtain ⟨k, w⟩ := p
    by_cases hk : k = t
    · subst hk
      simp [alookup] at h
      subst h
      exact List.mem_cons_self _ _
    · simp [alookup, hk] at h
      exact List.mem_cons_of_mem _ (ih h)

theorem get_view_mats_attrError_iff (sides : List Side) (mat : MatName)
    (em : ElemMap) :
    get_view_mats sides mat em = .error (.attributeError (matAttrName mat)) ↔
      buildViewmatmap em mat = .error (.attributeError (matAttrName mat)) := by
  constructor
  · intro h
    cases hb : buildViewmatmap em mat with
    | error err =>
      have herr : err = .attributeError (matAttrName mat) := by
        simp only [get_view_mats, hb] at h
        simpa using h
      rw [herr]
    | ok vmm =>
      exfalso
      simp only [get_view_mats, hb] at h
      cases hs : sideFragsOf vmm sides with
      | error err =>
        obtain ⟨t, ht⟩ := sideFragsOf_error_keyError vmm sides err hs
        rw [ht] at hs
        simp only [hs] at h
        simp at h
      | ok frags =>
        simp only [hs] at h
        cases h0 : npConcatenate (frags.map (fun p => p.1)) with
        | error e0 =>
          rw [npConcatenate_error_eq _ e0 h0] at h0
          simp only [h0] at h
          simp at h
        | ok a =>
          simp only [h0] at h
          cases h1 : npConcatenate (frags.map (fun p => p.2.1)) with
          | error e1 =>
            rw [npConcatenate_error_eq _ e1 h1] at h1
            simp only [h1] at h
            simp at h
          | ok b =>
            simp only [h1] at h
            cases h2 : npConcatenate (frags.map (fun p => p.2.2)) with
            | error e2 =>
              rw [npConcatenate_error_eq _ e2 h2] at h2
              simp only [h2] at h
              simp at h
            | ok c =>
              simp only [h2] at h
              simp at h
  · intro hb
    simp [get_view_mats, hb]

/-- C7 counterexample: every element type referenced by the side list
provides the requested accessor, yet view assembly fails with the
AttributeError, because the accessor map is built over the whole element map
and a different, unreferenced type lacks the accessor. -/
theorem c7_counterexample :
    (sideScalFrag em2 .scal_fpts0_for_inter sTri).isSome = true ∧
    get_view_mats [sTri] .scal_fpts0_for_inter em2 =
      .error (.attributeError (matAttrName .scal_fpts0_for_inter)) :=
  ⟨rfl, rfl⟩

/-- C7 (amended): view assembly fails with the UnsupportedElementType error
exactly when some element type in the element map — referenced by the side
list or not — lacks the requested accessor; when every type in the map
provides it, assembly over a nonempty side list of resolvable sides
succeeds. -/
theorem c7_accessor_failure_exact (em : ElemMap) (sides : List Side)
    (mat : MatName)
    (hmem : ∀ s ∈ sides, (sideScalFrag em mat s).isSome)
    (hne : sides ≠ []) :
    ((∃ p ∈ em, getattrAcc p.2 mat = none) ↔
      get_view_mats sides mat em = .error (.attributeError (matAttrName mat))) ∧
    ((∀ p ∈ em, (getattrAcc p.2 mat).isSome) →
      okB (get_view_mats sides mat em) = true) := by
  constructor
  · exact (buildViewmatmap_error_iff em mat).trans
      (get_view_mats_attrError_iff sides mat em).symm
  · intro hall
    have hgs : ∀ s ∈ sides,
        sideScalFrag em mat s =
          some ((fun q => (sideScalFrag em mat q).getD ([], [], [])) s) :=
      fun s hsm => option_eq_some_getD _ _ (hmem s hsm)
    rw [get_view_mats_ok em mat sides
      (fun q => (sideScalFrag em mat q).getD ([], [], [])) hall hgs hne]
    rfl

/-- C7 witness: at a concrete well-formed element map and side list the
amended equivalence and the success half both hold. -/
theorem c7_witness :
    ((∃ p ∈ em1, getattrAcc p.2 .scal_fpts0_for_inter = none) ↔
      get_view_mats [sTri] .scal_fpts0_for_inter em1 =
        .error (.attributeError (matAttrName .scal_fpts0_for_inter))) ∧
    ((∀ p ∈ em1, (getattrAcc p.2 .scal_fpts0_for_inter).isSome) →
      okB (get_view_mats [sTri] .scal_fpts0_for_inter em1) = true) :=
  c7_accessor_failure_exact em1 [sTri] .scal_fpts0_for_inter
    (by decide) (by decide)

/-- C3 (amended): the internal interface constructor performs no side-list
length validation at all: for any two nonempty side lists of resolvable
sides over an element map that provides the scalar accessor everywhere,
construction succeeds whether or not the two lengths agree, so the
len(lhs) = len(rhs) invariant is an unchecked precondition. -/
theorem c3_amended_no_length_check (be : Backend) (lhs rhs : List Side)
    (em : ElemMap) (cfg : Inifile)
    (hall : ∀ p ∈ em, (getattrAcc p.2 .scal_fpts0_for_inter).isSome)
    (hmem : ∀ s ∈ lhs ++ rhs, (alookup em s.etype).isSome)
    (hne1 : lhs ≠ []) (hne2 : rhs ≠ []) :
    okB (baseInternalInit be lhs rhs em cfg).1 = true := by
  have hscal : ∀ s ∈ lhs ++ rhs, (sideScalFrag em .scal_fpts0_for_inter s).isSome := by
    intro s hsm
    obtain ⟨e, he⟩ := Option.isSome_iff_exists.mp (hmem s hsm)
    have hin := alookup_mem em s.etype e he
    have hacc := hall (s.etype, e) hin
    obtain ⟨f, hf⟩ := Option.isSome_iff_exists.mp hacc
    simp [sideScalFrag, he, hf]
  have hgsL : ∀ s ∈ lhs,
      sideScalFrag em .scal_fpts0_for_inter s =
        some ((fun q => (sideScalFrag em .scal_fpts0_for_inter q).getD
          ([], [], [])) s) :=
    fun s hsm => option_eq_some_getD _ _
      (hscal s (List.mem_append_left _ hsm))
  have hgsR : ∀ s ∈ rhs,
      sideScalFrag em .scal_fpts0_for_inter s =
        some ((fun q => (sideScalFrag em .scal_fpts0_for_inter q).getD
          ([], [], [])) s) :=
    fun s hsm => option_eq_some_getD _ _
      (hscal s (List.mem_append_right _ hsm))
  have hgmL : ∀ s ∈ lhs,
      sideMagFrag em s =
        some ((fun q => (sideMagFrag em q).getD []) s) := by
    intro s hsm
    refine option_eq_some_getD _ _ ?_
    obtain ⟨e, he⟩ := Option.isSome_iff_exists.mp
      (hmem s (List.mem_append_left _ hsm))
    simp [sideMagFrag, he]
  have hgmR : ∀ s ∈ rhs,
      sideMagFrag em s =
        some ((fun q => (sideMagFrag em q).getD []) s) := by
    intro s hsm
    refine option_eq_some_getD _ _ ?_
    obtain ⟨e, he⟩ := Option.isSome_iff_exists.mp
      (hmem s (List.mem_append_right _ hsm))
    simp [sideMagFrag, he]
  have hgnL : ∀ s ∈ lhs,
      sideNormFrag em s =
        some ((fun q => (sideNormFrag em q).getD []) s) := by
    intro s hsm
    refine option_eq_some_getD _ _ ?_
    obtain ⟨e, he⟩ := Option.isSome_iff_exists.mp
      (hmem s (List.mem_append_left _ hsm))
    simp [sideNormFrag, he]
  have hL := get_view_mats_ok em .scal_fpts0_for_inter lhs
    (fun q => (sideScalFrag em .scal_fpts0_for_inter q).getD ([], [], []))
    hall hgsL hne1
  have hR := get_view_mats_ok em .scal_fpts0_for_inter rhs
    (fun q => (sideScalFrag em .scal_fpts0_for_inter q).getD ([], [], []))
    hall hgsR hne2
  have hML := get_mag_pnorm_mat_ok em lhs
    (fun q => (sideMagFrag em q).getD []) hgmL hne1
  have hMR := get_mag_pnorm_mat_ok em rhs
    (fun q => (sideMagFrag em q).getD []) hgmR hne2
  have hNL := get_norm_pnorm_mat_ok em lhs
    (fun q => (sideNormFrag em q).getD []) hgnL hne1
  cases hem : em with
  | nil =>
    exfalso
    obtain ⟨s0, lhs0, h0⟩ := List.exists_cons_of_ne_nil hne1
    have := hmem s0 (by simp [h0])
    rw [hem] at this
    simp [alookup] at this
  | cons p rest =>
    obtain ⟨t0, e0⟩ := p
    rw [hem] at hL hR hML hMR hNL
    simp [baseInternalInit, stepE, baseInterfacesInit, hL, hR, hML, hMR, hNL,
      Backend.alloc, okB]

/-- C3 amended witness: construction succeeds at a concrete pair of side
lists of unequal lengths. -/
theorem c3_amended_witness :
    okB (baseInternalInit be0 [sTri] [sTri, sTri2] em1 cfg0).1 = true :=
  c3_amended_no_length_check be0 [sTri] [sTri, sTri2] em1 cfg0
    (by decide) (by decide) (by decide) (by decide)

/-- C10: for a configuration whose gamma constant parses, the Euler internal
getter's getfloat route and the Euler distributed getter's float(get(...))
route produce the same specific-heat-ratio value, and both rsolve kernel
descriptors carry that same value as their scalar argument. -/
theorem c10_gamma_parse_routes_agree (stI : InternalState) (stM : MPIState)
    (s : String) (gamma : DecValue)
    (hI : stI.cfg.get "constants" "gamma" = .ok s)
    (hM : stM.cfg.get "constants" "gamma" = .ok s)
    (hp : pyfloat s = some gamma) :
    stI.cfg.getfloat "constants" "gamma" = .ok gamma ∧
    (eulerInternal_get_rsolve_kern stI).1 =
      .ok { name := "rsolve_rus_inv_int",
            args := [.nat stI.ndims, .nat stI.nvars, .hnd stI.scal0_lhs,
                     .hnd stI.scal0_rhs, .hnd stI.mag_pnorm_lhs,
                     .hnd stI.mag_pnorm_rhs, .hnd stI.norm_pnorm_lhs,
                     .fval gamma] } ∧
    (eulerMPI_get_rsolve_kern stM).1 =
      .ok { name := "rsolve_rus_inv_mpi",
            args := [.nat stM.ndims, .nat stM.nvars, .hnd stM.scal0_lhs,
                     .hnd stM.scal0_rhs, .hnd stM.mag_pnorm_lhs,
                     .hnd stM.norm_pnorm_lhs, .fval gamma] } := by
  refine ⟨?_, ?_, ?_⟩
  · simp [Inifile.getfloat, hI, hp]
  · simp [eulerInternal_get_rsolve_kern, Inifile.getfloat, hI, hp]
  · simp [eulerMPI_get_rsolve_kern, hM, hp]

/-- A placeholder handle for states assembled directly in witnesses. -/
def hnd0 : Handle := { id := 0, payload := .constMatrix [] }

/-- A concrete internal-interface state over the gamma configuration. -/
def stI0 : InternalState :=
  { ndims := 2, nvars := 4, cfg := cfgG, scal0_lhs := hnd0, scal0_rhs := hnd0,
    mag_pnorm_lhs := hnd0, mag_pnorm_rhs := hnd0, norm_pnorm_lhs := hnd0 }

/-- A concrete distributed-interface state over the gamma configuration. -/
def stM0 : MPIState :=
  { ndims := 2, nvars := 4, cfg := cfgG, rhsrank := 1, scal0_lhs := hnd0,
    scal0_rhs := hnd0, mag_pnorm_lhs := hnd0, norm_pnorm_lhs := hnd0 }

/-- The raw gamma string of the concrete configuration. -/
def gammaRaw : String := "1.4"

/-- C10 witness: at the concrete configuration with gamma = 1.4 both routes
yield 7/5 and both kernels carry it. -/
theorem c10_witness :
    stI0.cfg.getfloat "constants" "gamma" = .ok ⟨14, 1⟩ ∧
    (eulerInternal_get_rsolve_kern stI0).1 =
      .ok { name := "rsolve_rus_inv_int",
            args := [.nat stI0.ndims, .nat stI0.nvars, .hnd stI0.scal0_lhs,
                     .hnd stI0.scal0_rhs, .hnd stI0.mag_pnorm_lhs,
                     .hnd stI0.mag_pnorm_rhs, .hnd stI0.norm_pnorm_lhs,
                     .fval ⟨14, 1⟩] } ∧
    (eulerMPI_get_rsolve_kern stM0).1 =
      .ok { name := "rsolve_rus_inv_mpi",
            args := [.nat stM0.ndims, .nat stM0.nvars, .hnd stM0.scal0_lhs,
                     .hnd stM0.scal0_rhs, .hnd stM0.mag_pnorm_lhs,
                     .hnd stM0.norm_pnorm_lhs, .fval ⟨14, 1⟩] } :=
  c10_gamma_parse_routes_agree stI0 stM0 gammaRaw ⟨14, 1⟩ rfl rfl (by decide)

/-- C4: internal-interface construction allocates exactly two scalar constant
matrices — the lhs and rhs normal magnitudes, stored in that order — and
exactly one unit-normal constant matrix, built from the lhs side list; no rhs
unit-normal array is ever allocated or stored. -/
theorem c4_unit_normal_only_lhs (be : Backend) (lhs rhs : List Side)
    (em : ElemMap) (cfg : Inifile) (nv : Nat × Nat) (aL aR : Frag3)
    (ml mr : List Int) (nl : List (List Int))
    (hb : baseInterfacesInit em = .ok nv)
    (hL : get_view_mats lhs .scal_fpts0_for_inter em = .ok aL)
    (hR : get_view_mats rhs .scal_fpts0_for_inter em = .ok aR)
    (hML : get_mag_pnorm_mat lhs em = .ok ml)
    (hMR : get_mag_pnorm_mat rhs em = .ok mr)
    (hNL : get_norm_pnorm_mat lhs em = .ok nl) :
    ∃ st be2, baseInternalInit be lhs rhs em cfg = (.ok st, be2) ∧
      st.mag_pnorm_lhs.payload = .constMatrix ml ∧
      st.mag_pnorm_rhs.payload = .constMatrix mr ∧
      st.norm_pnorm_lhs.payload = .constMatrixV nl ∧
      ((be2.allocs.drop be.allocs.length).filter
          (fun h => h.payload.isConstM)) =
        [st.mag_pnorm_lhs, st.mag_pnorm_rhs] ∧
      ((be2.allocs.drop be.allocs.length).filter
          (fun h => h.payload.isConstMV)) = [st.norm_pnorm_lhs] := by
  refine ⟨{ ndims := nv.1, nvars := nv.2, cfg := cfg,
            scal0_lhs := ⟨be.nextId, .view aL.1 aL.2.1 aL.2.2 nv.2⟩,
            scal0_rhs := ⟨be.nextId + 1, .view aR.1 aR.2.1 aR.2.2 nv.2⟩,
            mag_pnorm_lhs := ⟨be.nextId + 2, .constMatrix ml⟩,
            mag_pnorm_rhs := ⟨be.nextId + 3, .constMatrix mr⟩,
            norm_pnorm_lhs := ⟨be.nextId + 4, .constMatrixV nl⟩ },
         ⟨be.nextId + 5,
          be.allocs ++ [⟨be.nextId, .view aL.1 aL.2.1 aL.2.2 nv.2⟩,
            ⟨be.nextId + 1, .view aR.1 aR.2.1 aR.2.2 nv.2⟩,
            ⟨be.nextId + 2, .constMatrix ml⟩,
            ⟨be.nextId + 3, .constMatrix mr⟩,
            ⟨be.nextId + 4, .constMatrixV nl⟩]⟩, ?_, rfl, rfl, rfl, ?_, ?_⟩
  · simp [baseInternalInit, stepE, hb, hL, hR, hML, hMR, hNL, Backend.alloc]
  · rw [List.drop_left]
    simp [List.filter, Payload.isConstM]
  · rw [List.drop_left]
    simp [List.filter, Payload.isConstMV]

/-- C4 witness: at a concrete construction the allocation record contains the
two magnitude matrices and the single lhs unit-normal matrix. -/
theorem c4_witness :
    ∃ st be2, baseInternalInit be0 [sTri] [sTri2] em1 cfg0 = (.ok st, be2) ∧
      st.mag_pnorm_lhs.payload = .constMatrix [1] ∧
      st.mag_pnorm_rhs.payload = .constMatrix [4] ∧
      st.norm_pnorm_lhs.payload = .constMatrixV [[0, 1, 0]] ∧
      ((be2.allocs.drop be0.allocs.length).filter
          (fun h => h.payload.isConstM)) =
        [st.mag_pnorm_lhs, st.mag_pnorm_rhs] ∧
      ((be2.allocs.drop be0.allocs.length).filter
          (fun h => h.payload.isConstMV)) = [st.norm_pnorm_lhs] :=
  c4_unit_normal_only_lhs be0 [sTri] [sTri2] em1 cfg0 (2, 4)
    ([0], [1], [0]) ([1], [2], [1]) [1] [4] [[0, 1, 0]]
    rfl rfl rfl rfl rfl rfl

theorem baseMPIInit_ok_inv (be : Backend) (lhs : List Side) (rk : Nat)
    (em : ElemMap) (cfg : Inifile) (st : MPIState) (be2 : Backend)
    (h : baseMPIInit be lhs rk em cfg = (.ok st, be2)) :
    st.scal0_lhs.id = be.nextId ∧
    st.scal0_rhs.id = be.nextId + 1 ∧
    st.scal0_rhs.payload = .mpiMatrixForView st.scal0_lhs.id
      st.scal0_lhs.payload.viewNpts st.scal0_lhs.payload.viewVlen ∧
    be2.nextId = be.nextId + 4 := by
  cases hb : baseInterfacesInit em with
  | error err => simp [baseMPIInit, stepE, hb] at h
  | ok nv =>
    cases hv : get_view_mats lhs .scal_fpts0_for_inter em with
    | error err => simp [baseMPIInit, stepE, hb, hv] at h
    | ok s0l =>
      cases hm : get_mag_pnorm_mat lhs em with
      | error err => simp [baseMPIInit, stepE, hb, hv, hm] at h
      | ok ml =>
        cases hn : get_norm_pnorm_mat lhs em with
        | error err => simp [baseMPIInit, stepE, hb, hv, hm, hn] at h
        | ok nl =>
          simp only [baseMPIInit, stepE, hb, hv, hm, hn, Backend.alloc,
            Backend.mpi_matrix_for_view, Prod.mk.injEq, Except.ok.injEq] at h
          obtain ⟨hst, hbe⟩ := h
          rw [← hst, ← hbe]
          exact ⟨rfl, rfl, rfl, rfl⟩

/-- C6: two distributed interface sets constructed one after the other on the
same backend have distinct dense receive buffers, and each buffer is sized
from its own set's lhs view (it records that view's id, point count and
vector length). -/
theorem c6_private_recv_buffers (be : Backend) (lhs1 lhs2 : List Side)
    (r1 r2 : Nat) (em1sel em2sel : ElemMap) (cfg1 cfg2 : Inifile)
    (st1 st2 : MPIState) (beA beB : Backend)
    (h1 : baseMPIInit be lhs1 r1 em1sel cfg1 = (.ok st1, beA))
    (h2 : baseMPIInit beA lhs2 r2 em2sel cfg2 = (.ok st2, beB)) :
    st1.scal0_rhs.id ≠ st2.scal0_rhs.id ∧
    st1.scal0_rhs.payload = .mpiMatrixForView st1.scal0_lhs.id
      st1.scal0_lhs.payload.viewNpts st1.scal0_lhs.payload.viewVlen ∧
    st2.scal0_rhs.payload = .mpiMatrixForView st2.scal0_lhs.id
      st2.scal0_lhs.payload.viewNpts st2.scal0_lhs.payload.viewVlen := by
  obtain ⟨hl1, hr1, hp1, hn1⟩ := baseMPIInit_ok_inv be lhs1 r1 em1sel cfg1 st1 beA h1
  obtain ⟨hl2, hr2, hp2, hn2⟩ := baseMPIInit_ok_inv beA lhs2 r2 em2sel cfg2 st2 beB h2
  refine ⟨?_, hp1, hp2⟩
  rw [hr1, hr2, hn1]
  omega

/-- The state of the first concretely constructed distributed set. -/
def stMPI1 : MPIState :=
  { ndims := 2, nvars := 4, cfg := cfg0, rhsrank := 1,
    scal0_lhs := ⟨0, .mpiView [0] [1] [0] 4⟩,
    scal0_rhs := ⟨1, .mpiMatrixForView 0 1 4⟩,
    mag_pnorm_lhs := ⟨2, .constMatrix [1]⟩,
    norm_pnorm_lhs := ⟨3, .constMatrixV [[0, 1, 0]]⟩ }

/-- The backend after the first concrete distributed construction. -/
def beMPI1 : Backend :=
  { nextId := 4,
    allocs := [⟨0, .mpiView [0] [1] [0] 4⟩, ⟨1, .mpiMatrixForView 0 1 4⟩,
               ⟨2, .constMatrix [1]⟩, ⟨3, .constMatrixV [[0, 1, 0]]⟩] }

/-- The state of the second concretely constructed distributed set. -/
def stMPI2 : MPIState :=
  { ndims := 2, nvars := 4, cfg := cfg0, rhsrank := 2,
    scal0_lhs := ⟨4, .mpiView [1] [2] [1] 4⟩,
    scal0_rhs := ⟨5, .mpiMatrixForView 4 1 4⟩,
    mag_pnorm_lhs := ⟨6, .constMatrix [4]⟩,
    norm_pnorm_lhs := ⟨7, .constMatrixV [[1, 2, 1]]⟩ }

/-- The backend after the second concrete distributed construction. -/
def beMPI2 : Backend :=
  { nextId := 8,
    allocs := [⟨0, .mpiView [0] [1] [0] 4⟩, ⟨1, .mpiMatrixForView 0 1 4⟩,
               ⟨2, .constMatrix [1]⟩, ⟨3, .constMatrixV [[0, 1, 0]]⟩,
               ⟨4, .mpiView [1] [2] [1] 4⟩, ⟨5, .mpiMatrixForView 4 1 4⟩,
               ⟨6, .constMatrix [4]⟩, ⟨7, .constMatrixV [[1, 2, 1]]⟩] }

/-- C6 witness: two concrete distributed sets, built for ranks 1 and 2 on the
same backend, have distinct receive buffers, each sized from its own lhs
view. -/
theorem c6_witness :
    stMPI1.scal0_rhs.id ≠ stMPI2.scal0_rhs.id ∧
    stMPI1.scal0_rhs.payload = .mpiMatrixForView stMPI1.scal0_lhs.id
      stMPI1.scal0_lhs.payload.viewNpts stMPI1.scal0_lhs.payload.viewVlen ∧
    stMPI2.scal0_rhs.payload = .mpiMatrixForView stMPI2.scal0_lhs.id
      stMPI2.scal0_lhs.payload.viewNpts stMPI2.scal0_lhs.payload.viewVlen :=
  c6_private_recv_buffers be0 [sTri] [sTri2] 1 2 em1 em1 cfg0 cfg0
    stMPI1 stMPI2 beMPI1 beMPI2 rfl rfl

/-- C1: the lhs view matrices, rhs view matrices, lhs and rhs
normal-magnitude matrices and the lhs unit-normal matrix of an internal
interface set are each the concatenation, in side-list order, of the same
per-side fragments, and each exposes exactly N interface points, where N is
the common total point count of the paired side lists; so position k of every
array refers to the same side's points. -/
theorem c1_arrays_equal_length_same_order (em : ElemMap) (lhs rhs : List Side)
    (npts : Side → Nat) (g0 : Side → Frag3) (gm : Side → List Int)
    (gn : Side → List (List Int))
    (hall : ∀ p ∈ em, (getattrAcc p.2 .scal_fpts0_for_inter).isSome)
    (hfrag : ∀ s ∈ lhs ++ rhs,
      sideScalFrag em .scal_fpts0_for_inter s = some (g0 s) ∧
      sideMagFrag em s = some (gm s) ∧ sideNormFrag em s = some (gn s))
    (hlen : ∀ s ∈ lhs ++ rhs,
      (g0 s).1.length = npts s ∧ (g0 s).2.1.length = npts s ∧
      (g0 s).2.2.length = npts s ∧ (gm s).length = npts s ∧
      (gn s).length = npts s)
    (hpair : lhs.map npts = rhs.map npts) (hne : lhs ≠ []) :
    get_view_mats lhs .scal_fpts0_for_inter em =
      .ok ((lhs.map fun s => (g0 s).1).flatten,
           (lhs.map fun s => (g0 s).2.1).flatten,
           (lhs.map fun s => (g0 s).2.2).flatten) ∧
    get_view_mats rhs .scal_fpts0_for_inter em =
      .ok ((rhs.map fun s => (g0 s).1).flatten,
           (rhs.map fun s => (g0 s).2.1).flatten,
           (rhs.map fun s => (g0 s).2.2).flatten) ∧
    get_mag_pnorm_mat lhs em = .ok (lhs.map gm).flatten ∧
    get_mag_pnorm_mat rhs em = .ok (rhs.map gm).flatten ∧
    get_norm_pnorm_mat lhs em = .ok (lhs.map gn).flatten ∧
    (lhs.map fun s => (g0 s).1).flatten.length = (lhs.map npts).sum ∧
    (lhs.map fun s => (g0 s).2.1).flatten.length = (lhs.map npts).sum ∧
    (lhs.map fun s => (g0 s).2.2).flatten.length = (lhs.map npts).sum ∧
    (lhs.map gm).flatten.length = (lhs.map npts).sum ∧
    (lhs.map gn).flatten.length = (lhs.map npts).sum ∧
    (rhs.map fun s => (g0 s).1).flatten.length = (lhs.map npts).sum ∧
    (rhs.map fun s => (g0 s).2.1).flatten.length = (lhs.map npts).sum ∧
    (rhs.map fun s => (g0 s).2.2).flatten.length = (lhs.map npts).sum ∧
    (rhs.map gm).flatten.length = (lhs.map npts).sum := by
  have hne2 : rhs ≠ [] := by
    intro hr
    apply hne
    subst hr
    simpa using congrArg List.length hpair
  have hsum : (rhs.map npts).sum = (lhs.map npts).sum := by rw [hpair]
  have flatlen : ∀ (l : List Side) (f : Side → List Int),
      (∀ s ∈ l, (f s).length = npts s) →
      (l.map f).flatten.length = (l.map npts).sum := by
    intro l f hf
    rw [List.length_flatten, List.map_map]
    exact congrArg List.sum (map_congr_mem l _ _ (fun a ha => hf a ha))
  have flatlenV : ∀ (l : List Side) (f : Side → List (List Int)),
      (∀ s ∈ l, (f s).length = npts s) →
      (l.map f).flatten.length = (l.map npts).sum := by
    intro l f hf
    rw [List.length_flatten, List.map_map]
    exact congrArg List.sum (map_congr_mem l _ _ (fun a ha => hf a ha))
  have hVL := get_view_mats_ok em .scal_fpts0_for_inter lhs g0 hall
    (fun s hsm => (hfrag s (List.mem_append_left _ hsm)).1) hne
  have hVR := get_view_mats_ok em .scal_fpts0_for_inter rhs g0 hall
    (fun s hsm => (hfrag s (List.mem_append_right _ hsm)).1) hne2
  have hML := get_mag_pnorm_mat_ok em lhs gm
    (fun s hsm => (hfrag s (List.mem_append_left _ hsm)).2.1) hne
  have hMR := get_mag_pnorm_mat_ok em rhs gm
    (fun s hsm => (hfrag s (List.mem_append_right _ hsm)).2.1) hne2
  have hNL := get_norm_pnorm_mat_ok em lhs gn
    (fun s hsm => (hfrag s (List.mem_append_left _ hsm)).2.2) hne
  refine ⟨hVL, hVR, hML, hMR, hNL, ?_, ?_, ?_, ?_, ?_, ?_, ?_, ?_, ?_⟩
  · exact flatlen lhs _
      (fun s hsm => (hlen s (List.mem_append_left _ hsm)).1)
  · exact flatlen lhs _
      (fun s hsm => (hlen s (List.mem_append_left _ hsm)).2.1)
  · exact flatlen lhs _
      (fun s hsm => (hlen s (List.mem_append_left _ hsm)).2.2.1)
  · exact flatlen lhs _
      (fun s hsm => (hlen s (List.mem_append_left _ hsm)).2.2.2.1)
  · exact flatlenV lhs _
      (fun s hsm => (hlen s (List.mem_append_left _ hsm)).2.2.2.2)
  · exact (flatlen rhs _
      (fun s hsm => (hlen s (List.mem_append_right _ hsm)).1)).trans hsum
  · exact (flatlen rhs _
      (fun s hsm => (hlen s (List.mem_append_right _ hsm)).2.1)).trans hsum
  · exact (flatlen rhs _
      (fun s hsm => (hlen s (List.mem_append_right _ hsm)).2.2.1)).trans hsum
  · exact (flatlen rhs _
      (fun s hsm => (hlen s (List.mem_append_right _ hsm)).2.2.2.1)).trans hsum

/-- Per-side point count of the concrete C1 scenario: one point per side. -/
def c1npts : Side → Nat := fun _ => 1

/-- Per-side scalar view fragments of the concrete C1 scenario. -/
def c1g0 : Side → Frag3 :=
  fun s => ([Int.ofNat s.eidx], [Int.ofNat s.face], [Int.ofNat s.rtag])

/-- Per-side magnitude fragment of the concrete C1 scenario. -/
def c1gm : Side → List Int := fun s => [Int.ofNat (s.eidx + s.face + s.rtag)]

/-- Per-side unit-normal fragment of the concrete C1 scenario. -/
def c1gn : Side → List (List Int) :=
  fun s => [[Int.ofNat s.eidx, Int.ofNat s.face, Int.ofNat s.rtag]]

/-- C1 witness: at a concrete one-type element map and a matched pair of
single-side lists every assembled array is the in-order concatenation of its
per-side fragments and exposes exactly one point. -/
theorem c1_witness :
    get_view_mats [sTri] .scal_fpts0_for_inter em1 =
      .ok (([sTri].map fun s => (c1g0 s).1).flatten,
           ([sTri].map fun s => (c1g0 s).2.1).flatten,
           ([sTri].map fun s => (c1g0 s).2.2).flatten) ∧
    get_view_mats [sTri2] .scal_fpts0_for_inter em1 =
      .ok (([sTri2].map fun s => (c1g0 s).1).flatten,
           ([sTri2].map fun s => (c1g0 s).2.1).flatten,
           ([sTri2].map fun s => (c1g0 s).2.2).flatten) ∧
    get_mag_pnorm_mat [sTri] em1 = .ok ([sTri].map c1gm).flatten ∧
    get_mag_pnorm_mat [sTri2] em1 = .ok ([sTri2].map c1gm).flatten ∧
    get_norm_pnorm_mat [sTri] em1 = .ok ([sTri].map c1gn).flatten ∧
    ([sTri].map fun s => (c1g0 s).1).flatten.length = ([sTri].map c1npts).sum ∧
    ([sTri].map fun s => (c1g0 s).2.1).flatten.length = ([sTri].map c1npts).sum ∧
    ([sTri].map fun s => (c1g0 s).2.2).flatten.length = ([sTri].map c1npts).sum ∧
    ([sTri].map c1gm).flatten.length = ([sTri].map c1npts).sum ∧
    ([sTri].map c1gn).flatten.length = ([sTri].map c1npts).sum ∧
    ([sTri2].map fun s => (c1g0 s).1).flatten.length = ([sTri].map c1npts).sum ∧
    ([sTri2].map fun s => (c1g0 s).2.1).flatten.length = ([sTri].map c1npts).sum ∧
    ([sTri2].map fun s => (c1g0 s).2.2).flatten.length = ([sTri].map c1npts).sum ∧
    ([sTri2].map c1gm).flatten.length = ([sTri].map c1npts).sum :=
  c1_arrays_equal_length_same_order em1 [sTri] [sTri2] c1npts c1g0 c1gm c1gn
    (by decide) (by decide) (by decide) (by decide) (by decide)

end PyFRInterfaces
